import Mathlib

/-!
Shallow embedding of the lootpacks service (`src/lootpacks.rs`) from the
dealmate-lootpacks repository, together with theorems settling the frozen
claims about its reward-pool construction, weighted selection, pack-opening
transaction and user-stats state machine.

Modelling conventions:
* timestamps and durations are integers in seconds (`Int`); `chrono`
  durations are exact second counts, `num_hours()` is truncating division
  by 3600 (`Int.tdiv`, matching Rust's truncation toward zero);
* database rows become Lean structures; SQL NULL becomes `Option`;
* `rand::thread_rng` draws become explicit parameters: a draw from
  `gen_range(lo..hi)` (exclusive) is modelled by `genRangeExcl lo hi r`
  applied to an arbitrary seed `r : Nat`, a draw from `gen_range(lo..=hi)`
  (inclusive) by `genRangeIncl lo hi r`, ranging over exactly the values
  the Rust call can return as `r` ranges over `Nat`;
* fallible paths return `Except AppError`; the surrounding sqlx
  transaction (commit on success, rollback on error) is modelled by
  `openPackDb`, which applies the writes only on a successful result.
-/

namespace Lootpacks

/-- A reward-template catalog row (`reward_templates` joined fields used by
the service). SQL-nullable columns are `Option`. -/
structure RewardTemplate where
  id : Nat
  type : String
  title : String
  value : String
  description : Option String
  rarity : String
  code_pattern : Option String
  validity_days : Option Int
  deriving Repr, DecidableEq

/-- One entry of a reward pool: a template with its mapping weight and the
running cumulative weight at its position. -/
structure WeightedReward where
  template : RewardTemplate
  weight : Int
  cumulative_weight : Int
  deriving Repr, DecidableEq

/-- The precomputed weighted-selection pool for one pack type. -/
structure RewardPool where
  rewards : List WeightedReward
  total_weight : Int
  deriving Repr, DecidableEq

/-- A `pack_types` row (fields used by `open_pack`). -/
structure PackType where
  name : String
  type : String
  price_coins : Option Int
  min_rewards : Int
  max_rewards : Int
  deriving Repr, DecidableEq

/-- A `user_lootpack_stats` row (fields read and written by the service). -/
structure UserLootpackStats where
  deal_coins : Option Int
  daily_streak : Option Int
  last_daily_claim : Option Int
  total_packs_opened : Option Int
  level : Option Int
  level_progress : Option Int
  member_status : Option String
  deriving Repr, DecidableEq

/-- The response assembled for stats reads and for the post-open snapshot. -/
structure UserStatsResponse where
  deal_coins : Int
  daily_streak : Int
  total_packs_opened : Int
  level : Int
  level_progress : Int
  member_status : String
  can_claim_daily : Bool
  next_daily_claim : Option Int
  deriving Repr, DecidableEq

/-- An ephemeral reward instance produced by one roll
(`GeneratedReward` in the source). -/
structure GeneratedReward where
  id : String
  type : String
  title : String
  value : String
  description : String
  code : Option String
  rarity : String
  expires_at : Option Int
  deriving Repr, DecidableEq

/-- A persisted `user_rewards` inventory row as written by `open_pack`. -/
structure UserRewardRow where
  type : String
  title : String
  value : String
  description : String
  code : Option String
  rarity : String
  source : String
  expires_at : Option Int
  deriving Repr, DecidableEq

/-- The service's error taxonomy (`crate::error::AppError` variants used
by the lootpack service). -/
inductive AppError where
  | NotFound : String → AppError
  | BadRequest : String → AppError
  | InternalError : String → AppError
  deriving Repr, DecidableEq

/-- Randomness consumed when materializing one reward: the fresh UUID draw
and the two draws of `generate_coupon_code`. -/
structure RollRand where
  uuid : String
  pfxDraw : Nat
  sfxDraw : Nat
  deriving Repr, DecidableEq

/-- Model of `rng.gen_range(lo..hi)` (exclusive upper bound) on integers:
as the seed `r` ranges over `Nat`, the result ranges over exactly
`[lo, hi)` when `lo < hi`. -/
def genRangeExcl (lo hi : Int) (r : Nat) : Int :=
  lo + ((r % (hi - lo).toNat : Nat) : Int)

/-- Model of `rng.gen_range(lo..=hi)` (inclusive upper bound) on integers. -/
def genRangeIncl (lo hi : Int) (r : Nat) : Int :=
  lo + ((r % (hi + 1 - lo).toNat : Nat) : Int)

/-- Number of seconds in one hour. -/
def hourSecs : Int := 3600

/-- Number of seconds in one day. -/
def daySecs : Int := 86400

/-- The suffix draw of `generate_coupon_code`: `rng.gen_range(100..999)`
(exclusive upper bound in the source). -/
def couponSuffix (sfxDraw : Nat) : Int :=
  genRangeExcl 100 999 sfxDraw

/-- The fixed prefix list `generate_coupon_code` selects from, keyed by
reward kind. -/
def couponPrefixes (reward_type : String) : List String :=
  if reward_type = "coupon" then ["DEAL", "SAVE", "SHOP", "MEGA", "SUPER"]
  else if reward_type = "voucher" then ["GIFT", "FREE", "ENJOY", "TREAT", "BONUS"]
  else ["DEAL"]

/-- `LootpackService::generate_coupon_code`: uniform prefix from the fixed
list (`gen_range(0..len)` modelled as `pfxDraw % len`), then the suffix
draw, concatenated. -/
def generate_coupon_code (reward_type : String) (pfxDraw sfxDraw : Nat) : String :=
  let pfx := (couponPrefixes reward_type).getD (pfxDraw % (couponPrefixes reward_type).length) "DEAL"
  pfx ++ toString (couponSuffix sfxDraw)

/-- `LootpackService::template_to_generated_reward`: attach a code for
coupons and vouchers only; expiry absent for `points`, otherwise
`now + validity_days` days when the template defines a validity. -/
def template_to_generated_reward (template : RewardTemplate) (now : Int) (rr : RollRand) :
    GeneratedReward :=
  let code :=
    if template.type = "coupon" ∨ template.type = "voucher" then
      some (generate_coupon_code template.type rr.pfxDraw rr.sfxDraw)
    else none
  let expires_at :=
    if template.type = "points" then none
    else template.validity_days.map (fun days => now + days * daySecs)
  { id := rr.uuid
    type := template.type
    title := template.title
    value := template.value
    description := template.description.getD ""
    code := code
    rarity := template.rarity
    expires_at := expires_at }

/-- The `user_rewards` INSERT of `open_pack`: the persisted row recomputes
`expires_at` as `None` for points and `Utc::now() + Duration::days(30)`
otherwise (the 30-day constant), ignoring the reward's own
template-derived expiry. -/
def persistReward (now : Int) (pack_name : String) (r : GeneratedReward) : UserRewardRow :=
  { type := r.type
    title := r.title
    value := r.value
    description := r.description
    code := r.code
    rarity := r.rarity
    source := pack_name
    expires_at := if r.type = "points" then none else some (now + 30 * daySecs) }

/-- Modelled from the spec: `RewardPool::new` lives in
`crate::models::lootpacks`, which is not under `src/`. Per the spec,
building a pool produces `total_weight` as the final cumulative
accumulator, i.e. the sum of the entries' weights. -/
def RewardPool.new (weighted_rewards : List WeightedReward) : RewardPool :=
  { rewards := weighted_rewards
    total_weight := (weighted_rewards.map (fun wr => wr.weight)).sum }

/-- Modelled from the spec: `RewardPool::select_by_weight` lives in
`crate::models::lootpacks`, not under `src/`. Per the spec it returns the
first entry, scanning in the pool's fixed order, whose cumulative weight
is greater than or equal to the target. -/
def RewardPool.select_by_weight (pool : RewardPool) (target : Int) : Option RewardTemplate :=
  (pool.rewards.find? (fun wr => target ≤ wr.cumulative_weight)).map (fun wr => wr.template)

/-- Modelled from the spec: `RewardPool::get_by_rarity` lives in
`crate::models::lootpacks`, not under `src/`. Per the spec it returns all
templates whose rarity equals the tier, in pool order. -/
def RewardPool.get_by_rarity (pool : RewardPool) (tier : String) : List RewardTemplate :=
  (pool.rewards.filter (fun wr => wr.template.rarity = tier)).map (fun wr => wr.template)

/-- The pool-building loop of `get_reward_pool_for_pack`: iterate the
(template, weight) mappings, accumulate `cumulative_weight += weight`
with an unspecified weight defaulting to 1 (`mapping.weight.unwrap_or(1)`),
and record each entry with its running cumulative weight. -/
def buildWeightedRewards : List (RewardTemplate × Option Int) → Int → List WeightedReward
  | [], _ => []
  | (t, w) :: rest, acc =>
    let wt := w.getD 1
    let cum := acc + wt
    { template := t, weight := wt, cumulative_weight := cum } :: buildWeightedRewards rest cum

/-- `LootpackService::get_reward_pool_for_pack` (cache miss path): build the
weighted entries from the fetched mappings, then construct the pool. The
mappings list stands for the rows fetched ordered by descending weight. -/
def get_reward_pool_for_pack (mappings : List (RewardTemplate × Option Int)) : RewardPool :=
  RewardPool.new (buildWeightedRewards mappings 0)

/-- The remaining-slot loop of `generate_rewards`: for each of `n` slots,
if the pool's total weight is positive, draw a target uniformly in
`[1, total_weight]` and materialize the selected template, silently
skipping the slot when selection yields nothing. `i` indexes the per-slot
randomness streams. -/
def fillSlots (pool : RewardPool) (now : Int) (tgts : Nat → Nat) (rrs : Nat → RollRand) :
    Nat → Nat → List GeneratedReward
  | 0, _ => []
  | n + 1, i =>
    if 0 < pool.total_weight then
      let target := genRangeIncl 1 pool.total_weight (tgts i)
      match pool.select_by_weight target with
      | some template =>
        template_to_generated_reward template now (rrs i) :: fillSlots pool now tgts rrs n (i + 1)
      | none => fillSlots pool now tgts rrs n (i + 1)
    else fillSlots pool now tgts rrs n (i + 1)

/-- The rare-or-better guarantee sub-pool `generate_rewards` builds for
premium packs: all rare, then epic, then legendary templates. -/
def guaranteedPool (pool : RewardPool) : List RewardTemplate :=
  pool.get_by_rarity "rare" ++ pool.get_by_rarity "epic" ++ pool.get_by_rarity "legendary"

/-- `LootpackService::generate_rewards`: for a premium pack priced at 299
or more, first materialize one uniformly chosen entry of the non-empty
guarantee sub-pool (`gen_range(0..len)` modelled as `gIdx % len`), then
fill the remaining `count - rewards.len()` slots by weighted selection. -/
def generate_rewards (pool : RewardPool) (count : Int) (pack_type : PackType) (now : Int)
    (gIdx : Nat) (gRand : RollRand) (tgts : Nat → Nat) (rrs : Nat → RollRand) :
    List GeneratedReward :=
  let guaranteed :=
    if pack_type.type = "premium" ∧ 299 ≤ pack_type.price_coins.getD 0 then
      let gp := guaranteedPool pool
      if h : gp = [] then []
      else
        [template_to_generated_reward
          (gp.get ⟨gIdx % gp.length, Nat.mod_lt _ (List.length_pos.mpr h)⟩) now gRand]
    else []
  let remaining_count : Int := count - guaranteed.length
  guaranteed ++ fillSlots pool now tgts rrs remaining_count.toNat 0

/-- The coin-bonus parse of `open_pack`:
`r.value.trim_start_matches('+').parse::<i32>().unwrap_or(0)` — strip all
leading `+` characters, parse as a signed integer within `i32` range,
defaulting to 0 on any failure. -/
def parse_points_value (s : String) : Int :=
  let t := (s.toList.dropWhile (fun c => c = '+')).asString
  match t.toInt? with
  | some n => if -(2 ^ 31) ≤ n ∧ n < 2 ^ 31 then n else 0
  | none => 0

/-- The coin bonus summed by `open_pack`: integer-parsed values of all
points-kind rewards. -/
def coin_bonus (rewards : List GeneratedReward) : Int :=
  ((rewards.filter (fun r => r.type = "points")).map (fun r => parse_points_value r.value)).sum

/-- The pack cost `open_pack` deducts: the price for premium packs
(`price_coins.unwrap_or(0)`), 0 for every other category. -/
def pack_cost (pack_type : PackType) : Int :=
  if pack_type.type = "premium" then pack_type.price_coins.getD 0 else 0

/-- The stats update of `open_pack` (an existing row): apply the coin
bonus and pack cost, count the pack, advance level progress with the
level-up rule, and for free packs update the daily streak from the
truncated hour difference and stamp `last_daily_claim` with `now`. -/
def advanceStats (stats : UserLootpackStats) (pack_type : PackType) (bonus : Int) (now : Int) :
    UserLootpackStats :=
  let current_coins := stats.deal_coins.getD 500
  let current_packs := stats.total_packs_opened.getD 0
  let current_level := stats.level.getD 1
  let current_progress := stats.level_progress.getD 0
  let current_streak := stats.daily_streak.getD 1
  let current_coins := current_coins + bonus - pack_cost pack_type
  let current_packs := current_packs + 1
  let current_progress := current_progress + 10
  let levelUp := 100 ≤ current_progress
  let current_level := if levelUp then current_level + 1 else current_level
  let current_coins := if levelUp then current_coins + 100 else current_coins
  let current_progress := if levelUp then 0 else current_progress
  let current_streak :=
    if pack_type.type = "free" then
      match stats.last_daily_claim with
      | some last_claim =>
        let hours_diff := Int.tdiv (now - last_claim) hourSecs
        if 24 ≤ hours_diff ∧ hours_diff < 48 then current_streak + 1
        else if 48 ≤ hours_diff then 1
        else current_streak
      | none => 1
    else current_streak
  let last_claim' :=
    if pack_type.type = "free" then some now else stats.last_daily_claim
  { stats with
    deal_coins := some current_coins
    total_packs_opened := some current_packs
    level := some current_level
    level_progress := some current_progress
    daily_streak := some current_streak
    last_daily_claim := last_claim' }

/-- The response snapshot `open_pack` assembles after the commit
(lines 326-342): `can_claim_daily` is forced true for free packs, and
`next_daily_claim` is `now + 24h` for free packs, otherwise
`last_daily_claim + 24h` whenever a last claim exists. -/
def openResponse (pack_type : PackType) (updated_stats : UserLootpackStats) (now : Int) :
    UserStatsResponse :=
  { deal_coins := updated_stats.deal_coins.getD 500
    daily_streak := updated_stats.daily_streak.getD 1
    total_packs_opened := updated_stats.total_packs_opened.getD 0
    level := updated_stats.level.getD 1
    level_progress := updated_stats.level_progress.getD 0
    member_status := updated_stats.member_status.getD "Bronze"
    can_claim_daily :=
      pack_type.type == "free" ||
        (match updated_stats.last_daily_claim with
         | some last => decide (24 * hourSecs ≤ now - last)
         | none => true)
    next_daily_claim :=
      if pack_type.type = "free" then some (now + 24 * hourSecs)
      else updated_stats.last_daily_claim.map (fun last => last + 24 * hourSecs) }

/-- `LootpackService::get_user_stats`: load the row, lazily creating it
with the documented defaults when absent, and derive
`can_claim_daily` / `next_daily_claim`. Returns the (possibly created)
row together with the response. -/
def get_user_stats (stats_row : Option UserLootpackStats) (now : Int) :
    UserLootpackStats × UserStatsResponse :=
  let stats :=
    match stats_row with
    | some s => s
    | none =>
      { deal_coins := some 500
        daily_streak := some 1
        last_daily_claim := none
        total_packs_opened := some 0
        level := some 1
        level_progress := some 0
        member_status := some "Bronze" }
  let can_claim_daily :=
    match stats.last_daily_claim with
    | some last_claim => decide (24 * hourSecs ≤ now - last_claim)
    | none => true
  let next_daily_claim :=
    if can_claim_daily then none
    else stats.last_daily_claim.map (fun last => last + 24 * hourSecs)
  (stats,
   { deal_coins := stats.deal_coins.getD 500
     daily_streak := stats.daily_streak.getD 1
     total_packs_opened := stats.total_packs_opened.getD 0
     level := stats.level.getD 1
     level_progress := stats.level_progress.getD 0
     member_status := stats.member_status.getD "Bronze"
     can_claim_daily := can_claim_daily
     next_daily_claim := next_daily_claim })

/-- Everything a successful `open_pack` returns and persists: the reward
list and stats snapshot of the response, plus the inventory rows and the
updated stats row written inside the transaction. -/
structure OpenPackResult where
  rewards : List GeneratedReward
  inventory_rows : List UserRewardRow
  updated_stats : UserLootpackStats
  stats_response : UserStatsResponse
  deriving Repr, DecidableEq

/-- The validation stage of `open_pack` (its early returns, in source
order): the daily cooldown and ad checks for free packs, and the balance
check for priced non-free packs (a missing stats row counts as
insufficient). Returns the error the source would return, or `none` when
validation passes. -/
def validate_open (pack_type : PackType) (user_stats : Option UserLootpackStats)
    (hasRecentDailyAd : Bool) (now : Int) : Option AppError :=
  let cooldownHit : Bool :=
    pack_type.type == "free" &&
      (match user_stats with
       | some stats =>
         match stats.last_daily_claim with
         | some last_claim => decide (now - last_claim < 24 * hourSecs)
         | none => false
       | none => false)
  let insufficientBalance : Bool :=
    pack_type.type != "free" && pack_type.price_coins.isSome &&
      (match user_stats with
       | some stats => decide (stats.deal_coins.getD 0 < pack_type.price_coins.getD 0)
       | none => true)
  if cooldownHit then some (.BadRequest "Daily pack still on cooldown")
  else if pack_type.type == "free" && !hasRecentDailyAd then
    some (.BadRequest "Please watch an ad to claim your daily free pack")
  else if insufficientBalance then some (.BadRequest "Insufficient DealCoins")
  else none

/-- `LootpackService::open_pack`. Parameters stand for the environment the
Rust function reads: the pack-type row fetched by id (`none` when missing
or inactive), the user's stats row, the ad-interaction fact (a completed
`daily_pack_ad` interaction within the last hour exists), the resolved
reward pool, the current time, and the random draws (`numDraw` for the
reward-count roll, `gIdx`/`gRand` for the guarantee pick, `tgts`/`rrs`
streams for the remaining slots). -/
def open_pack (pack_type_row : Option PackType) (user_stats : Option UserLootpackStats)
    (hasRecentDailyAd : Bool) (pool : RewardPool) (now : Int)
    (numDraw gIdx : Nat) (gRand : RollRand) (tgts : Nat → Nat) (rrs : Nat → RollRand) :
    Except AppError OpenPackResult :=
  match pack_type_row with
  | none => .error (.NotFound "Pack type not found")
  | some pack_type =>
    match validate_open pack_type user_stats hasRecentDailyAd now with
    | some e => .error e
    | none =>
      let num_rewards := genRangeIncl pack_type.min_rewards pack_type.max_rewards numDraw
      let generated_rewards := generate_rewards pool num_rewards pack_type now gIdx gRand tgts rrs
      let inventory_rows := generated_rewards.map (persistReward now pack_type.name)
      let bonus := coin_bonus generated_rewards
      match user_stats with
      | some stats =>
        let updated_stats := advanceStats stats pack_type bonus now
        .ok
          { rewards := generated_rewards
            inventory_rows := inventory_rows
            updated_stats := updated_stats
            stats_response := openResponse pack_type updated_stats now }
      | none => .error (.InternalError "Failed to update user stats")

/-- The persisted state `open_pack` touches: the user's stats row and the
reward inventory. -/
structure DbState where
  stats_row : Option UserLootpackStats
  inventory : List UserRewardRow
  deriving Repr, DecidableEq

/-- The transactional effect of `open_pack` on the store: on success the
updated stats row and the new inventory rows are committed; on any error
the transaction rolls back and the state is unchanged. -/
def openPackDb (db : DbState) (pack_type_row : Option PackType) (hasRecentDailyAd : Bool)
    (pool : RewardPool) (now : Int) (numDraw gIdx : Nat) (gRand : RollRand)
    (tgts : Nat → Nat) (rrs : Nat → RollRand) : DbState :=
  match open_pack pack_type_row db.stats_row hasRecentDailyAd pool now numDraw gIdx gRand tgts rrs with
  | .ok res => { stats_row := some res.updated_stats, inventory := db.inventory ++ res.inventory_rows }
  | .error _ => db

section Helpers

/-- On success, `open_pack` returns exactly the components produced by the
roll, the persistence map, the stats update and the response assembly. -/
theorem open_pack_ok_components {pt : PackType} {us : Option UserLootpackStats} {ad : Bool}
    {pool : RewardPool} {now : Int} {nd gI : Nat} {gR : RollRand} {tg : Nat → Nat}
    {rr : Nat → RollRand} {res : OpenPackResult}
    (h : open_pack (some pt) us ad pool now nd gI gR tg rr = .ok res) :
    ∃ stats, us = some stats ∧
      res.rewards =
        generate_rewards pool (genRangeIncl pt.min_rewards pt.max_rewards nd) pt now gI gR tg rr ∧
      res.inventory_rows = res.rewards.map (persistReward now pt.name) ∧
      res.updated_stats = advanceStats stats pt (coin_bonus res.rewards) now ∧
      res.stats_response = openResponse pt res.updated_stats now := by
  simp only [open_pack] at h
  rcases hv : validate_open pt us ad now with _ | e
  · rw [hv] at h
    cases us with
    | none => simp at h
    | some stats =>
      simp only [] at h
      refine ⟨stats, rfl, ?_⟩
      injection h with h'
      subst h'
      exact ⟨rfl, rfl, rfl, rfl⟩
  · rw [hv] at h
    simp at h

/-- The cooldown error is returned exactly when the pack is free and a
prior claim less than 24 hours old exists. -/
theorem validate_open_cooldown_iff (pt : PackType) (us : Option UserLootpackStats) (ad : Bool)
    (now : Int) :
    validate_open pt us ad now = some (.BadRequest "Daily pack still on cooldown") ↔
      pt.type = "free" ∧ ∃ stats last_claim, us = some stats ∧
        stats.last_daily_claim = some last_claim ∧ now - last_claim < 24 * hourSecs := by
  by_cases hfree : pt.type = "free"
  · cases us with
    | none => simp [validate_open, hfree]
    | some stats =>
      rcases hlc : stats.last_daily_claim with _ | lc
      · simp [validate_open, hfree, hlc]
      · by_cases hlt : now - lc < 24 * hourSecs
        · simp [validate_open, hfree, hlc, hlt]
        · simp [validate_open, hfree, hlc, hlt]
  · cases us with
    | none => simp [validate_open, hfree]
    | some stats =>
      rcases hlc : stats.last_daily_claim with _ | lc <;>
        simp [validate_open, hfree, hlc]

/-- The ad-required error is returned exactly when the pack is free, no
cooldown violation masks it, and no qualifying ad interaction exists. -/
theorem validate_open_ad_iff (pt : PackType) (us : Option UserLootpackStats) (ad : Bool)
    (now : Int) :
    validate_open pt us ad now =
        some (.BadRequest "Please watch an ad to claim your daily free pack") ↔
      pt.type = "free" ∧ ad = false ∧
        ¬ (∃ stats last_claim, us = some stats ∧
            stats.last_daily_claim = some last_claim ∧ now - last_claim < 24 * hourSecs) := by
  by_cases hfree : pt.type = "free"
  · cases us with
    | none => cases ad <;> simp [validate_open, hfree]
    | some stats =>
      rcases hlc : stats.last_daily_claim with _ | lc
      · cases ad <;> simp [validate_open, hfree, hlc]
      · by_cases hlt : now - lc < 24 * hourSecs
        · cases ad <;> simp [validate_open, hfree, hlc, hlt]
        · cases ad <;> simp [validate_open, hfree, hlc, hlt]
  · cases us with
    | none => simp [validate_open, hfree]
    | some stats =>
      rcases hlc : stats.last_daily_claim with _ | lc <;>
        simp [validate_open, hfree, hlc]

/-- The insufficient-balance error is returned exactly when the pack is
not free, carries a price, and the stats row is absent or its coins
(NULL read as 0) are below the price. -/
theorem validate_open_balance_iff (pt : PackType) (us : Option UserLootpackStats) (ad : Bool)
    (now : Int) :
    validate_open pt us ad now = some (.BadRequest "Insufficient DealCoins") ↔
      pt.type ≠ "free" ∧ pt.price_coins.isSome ∧
        (us = none ∨ ∃ stats, us = some stats ∧
          stats.deal_coins.getD 0 < pt.price_coins.getD 0) := by
  by_cases hfree : pt.type = "free"
  · cases us with
    | none => cases ad <;> simp [validate_open, hfree]
    | some stats =>
      rcases hlc : stats.last_daily_claim with _ | lc
      · cases ad <;> simp [validate_open, hfree, hlc]
      · by_cases hlt : now - lc < 24 * hourSecs <;>
          cases ad <;> simp [validate_open, hfree, hlc, hlt]
  · cases us with
    | none =>
      rcases hpc : pt.price_coins with _ | p <;>
        simp [validate_open, hfree, hpc, Option.isSome]
    | some stats =>
      by_cases hins : stats.deal_coins.getD 0 < pt.price_coins.getD 0 <;>
        rcases hpc : pt.price_coins with _ | p <;>
          simp_all [validate_open, hfree]

/-- Validation passes exactly when none of the three error conditions
holds. -/
theorem validate_open_none_iff (pt : PackType) (us : Option UserLootpackStats) (ad : Bool)
    (now : Int) :
    validate_open pt us ad now = none ↔
      (pt.type = "free" →
        ad = true ∧
        ¬ (∃ stats last_claim, us = some stats ∧
            stats.last_daily_claim = some last_claim ∧ now - last_claim < 24 * hourSecs)) ∧
      (pt.type ≠ "free" → pt.price_coins.isSome →
        ∃ stats, us = some stats ∧ pt.price_coins.getD 0 ≤ stats.deal_coins.getD 0) := by
  by_cases hfree : pt.type = "free"
  · cases us with
    | none => cases ad <;> simp [validate_open, hfree]
    | some stats =>
      rcases hlc : stats.last_daily_claim with _ | lc
      · cases ad <;> simp [validate_open, hfree, hlc]
      · by_cases hlt : now - lc < 24 * hourSecs <;>
          cases ad <;> simp [validate_open, hfree, hlc, hlt]
  · cases us with
    | none =>
      rcases hpc : pt.price_coins with _ | p <;> simp [validate_open, hfree, hpc]
    | some stats =>
      rcases hpc : pt.price_coins with _ | p
      · simp [validate_open, hfree, hpc]
      · by_cases hins : stats.deal_coins.getD 0 < p
        · simp only [validate_open, hfree, hpc, hins]
          simp [hfree]
        · simp only [validate_open, hfree, hpc, hins]
          simp [hfree]

/-- `open_pack` on an existing pack type returns an error exactly when
validation fails with that error, or validation passes but the stats row
is absent (the late `InternalError`). -/
theorem open_pack_error_iff (pt : PackType) (us : Option UserLootpackStats) (ad : Bool)
    (pool : RewardPool) (now : Int) (nd gI : Nat) (gR : RollRand) (tg : Nat → Nat)
    (rr : Nat → RollRand) (e : AppError) :
    open_pack (some pt) us ad pool now nd gI gR tg rr = .error e ↔
      validate_open pt us ad now = some e ∨
        (validate_open pt us ad now = none ∧ us = none ∧
          e = .InternalError "Failed to update user stats") := by
  rcases hv : validate_open pt us ad now with _ | e'
  · cases us with
    | none => simp [open_pack, hv, eq_comm]
    | some stats => simp [open_pack, hv]
  · simp [open_pack, hv]

/-- Validation fails with some `BadRequest` exactly when one of the three
documented conditions holds; validation produces no other kind of error. -/
theorem validate_open_badrequest_iff (pt : PackType) (us : Option UserLootpackStats) (ad : Bool)
    (now : Int) :
    (∃ msg, validate_open pt us ad now = some (.BadRequest msg)) ↔
      (pt.type = "free" ∧
        ((∃ stats last_claim, us = some stats ∧
            stats.last_daily_claim = some last_claim ∧ now - last_claim < 24 * hourSecs) ∨
          ad = false)) ∨
      (pt.type ≠ "free" ∧ pt.price_coins.isSome ∧
        (us = none ∨ ∃ stats, us = some stats ∧
          stats.deal_coins.getD 0 < pt.price_coins.getD 0)) := by
  by_cases hfree : pt.type = "free"
  · cases us with
    | none => cases ad <;> simp [validate_open, hfree]
    | some stats =>
      rcases hlc : stats.last_daily_claim with _ | lc
      · cases ad <;> simp [validate_open, hfree, hlc]
      · by_cases hlt : now - lc < 24 * hourSecs
        · cases ad <;> simp [validate_open, hfree, hlc, hlt]
        · cases ad <;> simp [validate_open, hfree, hlc, hlt]
  · cases us with
    | none =>
      rcases hpc : pt.price_coins with _ | p <;>
        simp [validate_open, hfree, hpc, Option.isSome]
    | some stats =>
      rcases hpc : pt.price_coins with _ | p
      · simp [validate_open, hfree, hpc, Option.isSome]
      · by_cases hins : stats.deal_coins.getD 0 < p
        · simp only [validate_open, hfree, hpc, hins]
          simp [hfree, hins]
        · simp only [validate_open, hfree, hpc, hins]
          simp [hfree, hins]

end Helpers

section Exemplars

/-- A concrete coupon template with a 7-day validity. -/
def tmplCouponEx : RewardTemplate :=
  { id := 1, type := "coupon", title := "Deal Coupon", value := "20% OFF",
    description := some "A discount", rarity := "rare", code_pattern := none,
    validity_days := some 7 }

/-- A concrete points template. -/
def tmplPointsEx : RewardTemplate :=
  { id := 2, type := "points", title := "Bonus Points", value := "+50",
    description := none, rarity := "common", code_pattern := none, validity_days := none }

/-- A fixed randomness bundle for one roll. -/
def rrEx : RollRand := { uuid := "uuid-0", pfxDraw := 0, sfxDraw := 0 }

/-- The constant per-slot randomness stream. -/
def rrsEx : Nat → RollRand := fun _ => rrEx

/-- The constant per-slot target-draw stream. -/
def tgEx : Nat → Nat := fun _ => 0

/-- The degenerate pool built from no mappings. -/
def poolEmptyEx : RewardPool := get_reward_pool_for_pack []

/-- A pool holding only the coupon template at weight 1. -/
def poolCouponEx : RewardPool := get_reward_pool_for_pack [(tmplCouponEx, some 1)]

/-- The free daily pack. -/
def packFreeEx : PackType :=
  { name := "Daily Free Pack", type := "free", price_coins := none,
    min_rewards := 1, max_rewards := 1 }

/-- A non-free pack with a NULL price. -/
def packBasicEx : PackType :=
  { name := "Basic Pack", type := "basic", price_coins := none,
    min_rewards := 1, max_rewards := 1 }

/-- A premium pack priced at 299 coins. -/
def packPremiumEx : PackType :=
  { name := "Premium Pack", type := "premium", price_coins := some 299,
    min_rewards := 1, max_rewards := 1 }

/-- A fresh default stats row (the documented creation defaults). -/
def statsFreshEx : UserLootpackStats :=
  { deal_coins := some 500, daily_streak := some 1, last_daily_claim := none,
    total_packs_opened := some 0, level := some 1, level_progress := some 0,
    member_status := some "Bronze" }

/-- A stats row whose last daily claim was 1000 seconds before time 100000. -/
def statsRecentClaimEx : UserLootpackStats :=
  { statsFreshEx with last_daily_claim := some 99000 }

/-- A stats row with an empty coin balance. -/
def statsZeroCoinsEx : UserLootpackStats :=
  { statsFreshEx with deal_coins := some 0 }

/-- A stats row at 95 level progress. -/
def statsProgress95Ex : UserLootpackStats :=
  { statsFreshEx with level_progress := some 95 }

/-- A stats row whose last daily claim was at time 0 (30 hours before
time 108000). -/
def statsClaim30hEx : UserLootpackStats :=
  { statsFreshEx with last_daily_claim := some 0 }

end Exemplars

section Claims

/-- C4: `open_pack`'s validation raises exactly the specified errors: for a
free pack it fails with `BadRequest` when a prior `last_daily_claim` exists
less than 24 hours ago, and fails with `BadRequest` when no completed
`daily_pack_ad` interaction exists within the last hour; for a non-free
pack with a non-null price it fails with `BadRequest` when the user's
deal coins are below the price or the stats row is absent. Each
`BadRequest` failure occurs iff its condition holds (the earlier cooldown
check masking the ad check), and every error leaves the persisted state
unchanged. -/
theorem C4_open_pack_validation (pt : PackType) (us : Option UserLootpackStats) (ad : Bool)
    (pool : RewardPool) (now : Int) (nd gI : Nat) (gR : RollRand) (tg : Nat → Nat)
    (rr : Nat → RollRand) :
    (open_pack (some pt) us ad pool now nd gI gR tg rr =
        .error (.BadRequest "Daily pack still on cooldown") ↔
      pt.type = "free" ∧ ∃ stats last_claim, us = some stats ∧
        stats.last_daily_claim = some last_claim ∧ now - last_claim < 24 * hourSecs) ∧
    (open_pack (some pt) us ad pool now nd gI gR tg rr =
        .error (.BadRequest "Please watch an ad to claim your daily free pack") ↔
      pt.type = "free" ∧ ad = false ∧
        ¬ (∃ stats last_claim, us = some stats ∧
            stats.last_daily_claim = some last_claim ∧ now - last_claim < 24 * hourSecs)) ∧
    (open_pack (some pt) us ad pool now nd gI gR tg rr =
        .error (.BadRequest "Insufficient DealCoins") ↔
      pt.type ≠ "free" ∧ pt.price_coins.isSome ∧
        (us = none ∨ ∃ stats, us = some stats ∧
          stats.deal_coins.getD 0 < pt.price_coins.getD 0)) ∧
    ((∃ msg, open_pack (some pt) us ad pool now nd gI gR tg rr = .error (.BadRequest msg)) ↔
      (pt.type = "free" ∧
        ((∃ stats last_claim, us = some stats ∧
            stats.last_daily_claim = some last_claim ∧ now - last_claim < 24 * hourSecs) ∨
          ad = false)) ∨
      (pt.type ≠ "free" ∧ pt.price_coins.isSome ∧
        (us = none ∨ ∃ stats, us = some stats ∧
          stats.deal_coins.getD 0 < pt.price_coins.getD 0))) ∧
    (∀ (e : AppError) (db : DbState), db.stats_row = us →
      open_pack (some pt) us ad pool now nd gI gR tg rr = .error e →
      openPackDb db (some pt) ad pool now nd gI gR tg rr = db) := by
  refine ⟨?_, ?_, ?_, ?_, ?_⟩
  · rw [open_pack_error_iff, ← validate_open_cooldown_iff pt us ad now]
    simp
  · rw [open_pack_error_iff, ← validate_open_ad_iff pt us ad now]
    simp
  · rw [open_pack_error_iff, ← validate_open_balance_iff pt us ad now]
    simp
  · rw [← validate_open_badrequest_iff pt us ad now]
    constructor
    · rintro ⟨msg, hmsg⟩
      rw [open_pack_error_iff] at hmsg
      rcases hmsg with h | ⟨-, -, h⟩
      · exact ⟨msg, h⟩
      · exact absurd h (by simp)
    · rintro ⟨msg, hmsg⟩
      refine ⟨msg, ?_⟩
      rw [open_pack_error_iff]
      exact Or.inl hmsg
  · intro e db hdb hop
    rw [openPackDb, hdb, hop]

/-- Witness for C4: a free pack opened 1000 seconds after the previous
daily claim hits the cooldown error. -/
theorem C4_witness :
    open_pack (some packFreeEx) (some statsRecentClaimEx) true poolEmptyEx 100000 0 0 rrEx
        tgEx rrsEx = .error (.BadRequest "Daily pack still on cooldown") :=
  (C4_open_pack_validation packFreeEx (some statsRecentClaimEx) true poolEmptyEx 100000 0 0
      rrEx tgEx rrsEx).1.mpr
    ⟨rfl, statsRecentClaimEx, 99000, rfl, rfl, by decide⟩

/-- C10: an active non-free pack whose price is NULL undergoes no balance
validation at all: for any user with an existing stats row — whatever the
balance — the opening succeeds (so the insufficient-balance error is never
returned), and the stats update deducts a pack cost of 0, adding only the
roll income (and a level-up bonus when due). -/
theorem C10_unpriced_pack (pt : PackType) (stats : UserLootpackStats) (ad : Bool)
    (pool : RewardPool) (now : Int) (nd gI : Nat) (gR : RollRand) (tg : Nat → Nat)
    (rr : Nat → RollRand) (hnf : pt.type ≠ "free") (hnp : pt.price_coins = none) :
    pack_cost pt = 0 ∧
    ∃ res, open_pack (some pt) (some stats) ad pool now nd gI gR tg rr = .ok res ∧
      res.updated_stats.deal_coins =
        some (stats.deal_coins.getD 500 + coin_bonus res.rewards +
          (if 100 ≤ stats.level_progress.getD 0 + 10 then 100 else 0)) := by
  have hpc0 : pack_cost pt = 0 := by
    rw [pack_cost, hnp]
    split <;> rfl
  have hv : validate_open pt (some stats) ad now = none := by
    rw [validate_open_none_iff]
    refine ⟨fun h => absurd h hnf, fun _ hps => ?_⟩
    rw [hnp] at hps
    simp at hps
  refine ⟨hpc0, ?_⟩
  set g := generate_rewards pool (genRangeIncl pt.min_rewards pt.max_rewards nd) pt now gI gR tg rr
    with hg
  refine ⟨{ rewards := g
            inventory_rows := g.map (persistReward now pt.name)
            updated_stats := advanceStats stats pt (coin_bonus g) now
            stats_response := openResponse pt (advanceStats stats pt (coin_bonus g) now) now },
    by simp [open_pack, hv], ?_⟩
  by_cases hlev : 100 ≤ stats.level_progress.getD 0 + 10
  · simp only [advanceStats, hpc0, hlev, if_true]
    simp only [Option.some.injEq]
    omega
  · simp only [advanceStats, hpc0, hlev, if_false]
    simp only [Option.some.injEq]
    omega

/-- Witness for C10: a user with zero coins successfully opens the
NULL-priced non-free basic pack. -/
theorem C10_witness :
    pack_cost packBasicEx = 0 ∧
    ∃ res, open_pack (some packBasicEx) (some statsZeroCoinsEx) false poolEmptyEx 0 0 0 rrEx
        tgEx rrsEx = .ok res ∧
      res.updated_stats.deal_coins =
        some (statsZeroCoinsEx.deal_coins.getD 500 + coin_bonus res.rewards +
          (if 100 ≤ statsZeroCoinsEx.level_progress.getD 0 + 10 then 100 else 0)) :=
  C10_unpriced_pack packBasicEx statsZeroCoinsEx false poolEmptyEx 0 0 0 rrEx tgEx rrsEx
    (by decide) rfl

/-- C5: for every pack opening on an existing stats row, the committed
stats satisfy: the coin delta is `coin_bonus - pack_cost` where
`coin_bonus` sums the integer-parsed values of the points rewards and
`pack_cost` is the price for premium packs and 0 otherwise;
`total_packs_opened` increments; level progress rises by 10, and on
reaching 100 the level increments, progress resets to 0, and 100 bonus
coins land after the cost subtraction (so progress 95 yields a level-up
with the +100 bonus). -/
theorem C5_stats_transition (pt : PackType) (stats : UserLootpackStats) (ad : Bool)
    (pool : RewardPool) (now : Int) (nd gI : Nat) (gR : RollRand) (tg : Nat → Nat)
    (rr : Nat → RollRand) (res : OpenPackResult) (dc tp lv lp : Int)
    (hdc : stats.deal_coins = some dc) (htp : stats.total_packs_opened = some tp)
    (hlv : stats.level = some lv) (hlp : stats.level_progress = some lp)
    (hok : open_pack (some pt) (some stats) ad pool now nd gI gR tg rr = .ok res) :
    coin_bonus res.rewards =
      ((res.rewards.filter (fun r => r.type = "points")).map
        (fun r => parse_points_value r.value)).sum ∧
    pack_cost pt = (if pt.type = "premium" then pt.price_coins.getD 0 else 0) ∧
    res.updated_stats.total_packs_opened = some (tp + 1) ∧
    (lp + 10 < 100 →
      res.updated_stats.deal_coins = some (dc + coin_bonus res.rewards - pack_cost pt) ∧
      res.updated_stats.level = some lv ∧
      res.updated_stats.level_progress = some (lp + 10)) ∧
    (100 ≤ lp + 10 →
      res.updated_stats.deal_coins = some (dc + coin_bonus res.rewards - pack_cost pt + 100) ∧
      res.updated_stats.level = some (lv + 1) ∧
      res.updated_stats.level_progress = some 0) ∧
    (lp = 95 →
      res.updated_stats.level = some (lv + 1) ∧
      res.updated_stats.level_progress = some 0 ∧
      res.updated_stats.deal_coins = some (dc + coin_bonus res.rewards - pack_cost pt + 100)) := by
  obtain ⟨stats', hst, hrew, hinv, hupd, hresp⟩ := open_pack_ok_components hok
  injection hst with hst'
  subst hst'
  rw [hupd]
  refine ⟨rfl, rfl, ?_, ?_, ?_, ?_⟩
  · simp [advanceStats, htp]
  · intro h
    simp only [advanceStats, hdc, hlv, hlp, Option.getD_some]
    rw [if_neg (by omega), if_neg (by omega), if_neg (by omega)]
    exact ⟨rfl, rfl, rfl⟩
  · intro h
    simp only [advanceStats, hdc, hlv, hlp, Option.getD_some]
    rw [if_pos (by omega), if_pos (by omega), if_pos (by omega)]
    exact ⟨rfl, rfl, rfl⟩
  · intro h
    subst h
    simp only [advanceStats, hdc, hlv, hlp, Option.getD_some]
    rw [if_pos (by omega), if_pos (by omega), if_pos (by omega)]
    exact ⟨rfl, rfl, rfl⟩

/-- Witness for C5: opening the NULL-priced basic pack at level progress
95 levels the user up, resets progress and grants the +100 bonus. -/
theorem C5_witness :
    ∃ (res : OpenPackResult),
      open_pack (some packBasicEx) (some statsProgress95Ex) false poolEmptyEx 0 0 0 rrEx tgEx
          rrsEx = .ok res ∧
      res.updated_stats.total_packs_opened = some 1 ∧
      res.updated_stats.level = some 2 ∧
      res.updated_stats.level_progress = some 0 ∧
      res.updated_stats.deal_coins = some (500 + coin_bonus res.rewards - pack_cost packBasicEx + 100) := by
  have hok :
      open_pack (some packBasicEx) (some statsProgress95Ex) false poolEmptyEx 0 0 0 rrEx tgEx
          rrsEx =
        .ok { rewards := []
              inventory_rows := []
              updated_stats := advanceStats statsProgress95Ex packBasicEx 0 0
              stats_response := openResponse packBasicEx
                (advanceStats statsProgress95Ex packBasicEx 0 0) 0 } := by
    rfl
  have h := C5_stats_transition packBasicEx statsProgress95Ex false poolEmptyEx 0 0 0 rrEx tgEx
    rrsEx _ 500 0 1 95 rfl rfl rfl rfl hok
  exact ⟨_, hok, h.2.2.1, (h.2.2.2.2.2 rfl).1, (h.2.2.2.2.2 rfl).2.1, (h.2.2.2.2.2 rfl).2.2⟩

/-- C6: for every free-pack opening that passes validation, the daily
streak transitions by the truncated hour difference `h`: absent prior
claim gives streak 1, `24 ≤ h < 48` increments the streak, `h ≥ 48`
resets it to 1, and `last_daily_claim` is stamped with `now`; non-free
openings leave the streak value and `last_daily_claim` unchanged. -/
theorem C6_streak_transition (pt : PackType) (stats : UserLootpackStats) (ad : Bool)
    (pool : RewardPool) (now : Int) (nd gI : Nat) (gR : RollRand) (tg : Nat → Nat)
    (rr : Nat → RollRand) (res : OpenPackResult) (streak0 : Int)
    (hds : stats.daily_streak = some streak0)
    (hok : open_pack (some pt) (some stats) ad pool now nd gI gR tg rr = .ok res) :
    (pt.type = "free" →
      res.updated_stats.last_daily_claim = some now ∧
      (stats.last_daily_claim = none → res.updated_stats.daily_streak = some 1) ∧
      (∀ last, stats.last_daily_claim = some last →
        (24 ≤ Int.tdiv (now - last) hourSecs → Int.tdiv (now - last) hourSecs < 48 →
          res.updated_stats.daily_streak = some (streak0 + 1)) ∧
        (48 ≤ Int.tdiv (now - last) hourSecs →
          res.updated_stats.daily_streak = some 1))) ∧
    (pt.type ≠ "free" →
      res.updated_stats.daily_streak = some streak0 ∧
      res.updated_stats.last_daily_claim = stats.last_daily_claim) := by
  obtain ⟨stats', hst, hrew, hinv, hupd, hresp⟩ := open_pack_ok_components hok
  injection hst with hst'
  subst hst'
  rw [hupd]
  constructor
  · intro hfree
    refine ⟨by simp [advanceStats, hfree], ?_, ?_⟩
    · intro hnone
      simp [advanceStats, hfree, hnone]
    · intro last hlast
      constructor
      · intro h24 h48
        simp only [advanceStats, hfree, hlast, hds, Option.getD_some]
        rw [if_pos trivial, if_pos ⟨h24, h48⟩]
      · intro h48
        simp only [advanceStats, hfree, hlast, hds, Option.getD_some]
        rw [if_pos trivial, if_neg (by omega), if_pos h48]
  · intro hnf
    constructor
    · simp [advanceStats, hnf, hds]
    · simp [advanceStats, hnf]

/-- Witness for C6: a free pack opened 30 hours after the previous claim
(with the ad watched) stamps the claim time and increments the streak. -/
theorem C6_witness :
    ∃ (res : OpenPackResult),
      open_pack (some packFreeEx) (some statsClaim30hEx) true poolEmptyEx 108000 0 0 rrEx tgEx
          rrsEx = .ok res ∧
      res.updated_stats.last_daily_claim = some 108000 ∧
      res.updated_stats.daily_streak = some (1 + 1) := by
  have hok :
      open_pack (some packFreeEx) (some statsClaim30hEx) true poolEmptyEx 108000 0 0 rrEx tgEx
          rrsEx =
        .ok { rewards := []
              inventory_rows := []
              updated_stats := advanceStats statsClaim30hEx packFreeEx 0 108000
              stats_response := openResponse packFreeEx
                (advanceStats statsClaim30hEx packFreeEx 0 108000) 108000 } := by
    rfl
  have h := C6_streak_transition packFreeEx statsClaim30hEx true poolEmptyEx 108000 0 0 rrEx tgEx
    rrsEx _ 1 rfl hok
  exact ⟨_, hok, (h.1 rfl).1, ((h.1 rfl).2.2 0 rfl).1 (by decide) (by decide)⟩

/-- C7 counterexample: the open-pack response pair does not equal the
read projection applied to the post-transaction stats. For a free pack
just opened, the response claims `can_claim_daily = true` while the read
projection on the updated stats gives `false`; for a non-free pack whose
user is already claimable, the response emits `last + 24h` as the next
claim while the read projection gives none. -/
theorem C7_counterexample :
    (open_pack (some packFreeEx) (some statsFreshEx) true poolEmptyEx 1000 0 0 rrEx tgEx
          rrsEx).map
        (fun res => (res.stats_response.can_claim_daily,
          (get_user_stats (some res.updated_stats) 1000).2.can_claim_daily)) =
      .ok (true, false) ∧
    (open_pack (some packBasicEx) (some statsClaim30hEx) false poolEmptyEx 200000 0 0 rrEx tgEx
          rrsEx).map
        (fun res => (res.stats_response.next_daily_claim,
          (get_user_stats (some res.updated_stats) 200000).2.next_daily_claim)) =
      .ok (some 86400, none) :=
  ⟨rfl, rfl⟩

/-- C7 (amended): the response pair diverges from the read projection.
For a free pack the response forces `can_claim_daily = true` (the read
projection on the just-stamped stats gives `false`) and always emits
`now + 24h` as the next claim; for a non-free pack `can_claim_daily`
agrees with the read projection, but `next_daily_claim` is
`last_daily_claim + 24h` whenever a last claim exists, even when the user
is already claimable (where the read projection gives none). -/
theorem C7_response_projection (pt : PackType) (stats : UserLootpackStats) (ad : Bool)
    (pool : RewardPool) (now : Int) (nd gI : Nat) (gR : RollRand) (tg : Nat → Nat)
    (rr : Nat → RollRand) (res : OpenPackResult)
    (hok : open_pack (some pt) (some stats) ad pool now nd gI gR tg rr = .ok res) :
    (pt.type = "free" →
      res.stats_response.can_claim_daily = true ∧
      res.stats_response.next_daily_claim = some (now + 24 * hourSecs) ∧
      (get_user_stats (some res.updated_stats) now).2.can_claim_daily = false) ∧
    (pt.type ≠ "free" →
      res.stats_response.can_claim_daily =
        (get_user_stats (some res.updated_stats) now).2.can_claim_daily ∧
      res.stats_response.next_daily_claim =
        res.updated_stats.last_daily_claim.map (fun last => last + 24 * hourSecs)) := by
  obtain ⟨stats', hst, hrew, hinv, hupd, hresp⟩ := open_pack_ok_components hok
  injection hst with hst'
  subst hst'
  constructor
  · intro hfree
    have hlast : res.updated_stats.last_daily_claim = some now := by
      rw [hupd]
      simp [advanceStats, hfree]
    refine ⟨?_, ?_, ?_⟩
    · rw [hresp]
      simp [openResponse, hfree]
    · rw [hresp]
      simp [openResponse, hfree]
    · simp only [get_user_stats, hlast]
      norm_num [hourSecs]
  · intro hnf
    have hbeq : (pt.type == "free") = false := by
      simp [hnf]
    refine ⟨?_, ?_⟩
    · rw [hresp]
      rcases hlast : res.updated_stats.last_daily_claim with _ | last
      · simp [openResponse, get_user_stats, hbeq, hlast]
      · simp [openResponse, get_user_stats, hbeq, hlast]
    · rw [hresp]
      simp [openResponse, hnf]

/-- Witness for C7's amended statement: applied to the same free-pack
opening as the counterexample. -/
theorem C7_witness :
    ∃ (res : OpenPackResult),
      open_pack (some packFreeEx) (some statsFreshEx) true poolEmptyEx 1000 0 0 rrEx tgEx
          rrsEx = .ok res ∧
      res.stats_response.can_claim_daily = true ∧
      res.stats_response.next_daily_claim = some (1000 + 24 * hourSecs) ∧
      (get_user_stats (some res.updated_stats) 1000).2.can_claim_daily = false := by
  have hok :
      open_pack (some packFreeEx) (some statsFreshEx) true poolEmptyEx 1000 0 0 rrEx tgEx
          rrsEx =
        .ok { rewards := []
              inventory_rows := []
              updated_stats := advanceStats statsFreshEx packFreeEx 0 1000
              stats_response := openResponse packFreeEx
                (advanceStats statsFreshEx packFreeEx 0 1000) 1000 } := by
    rfl
  have h := C7_response_projection packFreeEx statsFreshEx true poolEmptyEx 1000 0 0 rrEx tgEx
    rrsEx _ hok
  exact ⟨_, hok, (h.1 rfl).1, (h.1 rfl).2.1, (h.1 rfl).2.2⟩

/-- C8 counterexample: `open_pack` does not lazily create a stats row. A
user with no prior stats row who opens the free pack with the ad watched
fails with the late `InternalError` — precisely because the row is
absent. -/
theorem C8_counterexample :
    open_pack (some packFreeEx) none true poolEmptyEx 0 0 0 rrEx tgEx rrsEx =
      .error (.InternalError "Failed to update user stats") :=
  rfl

/-- C8 (amended): `open_pack` loads the stats row without creating it.
With no stats row, a free pack passing validation — and likewise any
non-free pack with a NULL price — ends in
`InternalError "Failed to update user stats"`, while a priced non-free
pack fails validation with the insufficient-balance `BadRequest`; the
lazy creation with the documented defaults (balance 500, streak 1,
level 1) happens only in `get_user_stats`. -/
theorem C8_no_lazy_create (pt : PackType) (ad : Bool) (pool : RewardPool) (now : Int)
    (nd gI : Nat) (gR : RollRand) (tg : Nat → Nat) (rr : Nat → RollRand) :
    (pt.type = "free" → ad = true →
      open_pack (some pt) none ad pool now nd gI gR tg rr =
        .error (.InternalError "Failed to update user stats")) ∧
    (pt.type ≠ "free" → pt.price_coins.isSome →
      open_pack (some pt) none ad pool now nd gI gR tg rr =
        .error (.BadRequest "Insufficient DealCoins")) ∧
    (pt.type ≠ "free" → pt.price_coins = none →
      open_pack (some pt) none ad pool now nd gI gR tg rr =
        .error (.InternalError "Failed to update user stats")) ∧
    ((get_user_stats none now).1.deal_coins = some 500 ∧
     (get_user_stats none now).1.daily_streak = some 1 ∧
     (get_user_stats none now).1.level = some 1) := by
  refine ⟨?_, ?_, ?_, rfl, rfl, rfl⟩
  · intro hfree had
    have hv : validate_open pt none ad now = none := by
      rw [validate_open_none_iff]
      refine ⟨fun _ => ⟨had, ?_⟩, fun hnf _ => absurd hfree hnf⟩
      rintro ⟨stats, last, hst, -, -⟩
      exact Option.noConfusion hst
    simp [open_pack, hv]
  · intro hnf hps
    have hv : validate_open pt none ad now = some (.BadRequest "Insufficient DealCoins") :=
      (validate_open_balance_iff pt none ad now).mpr ⟨hnf, hps, Or.inl rfl⟩
    simp [open_pack, hv]
  · intro hnf hnp
    have hv : validate_open pt none ad now = none := by
      rw [validate_open_none_iff]
      refine ⟨fun h => absurd h hnf, fun _ hps => ?_⟩
      rw [hnp] at hps
      simp at hps
    simp [open_pack, hv]

/-- Witness for C8's amended statement: with no stats row, a priced
premium pack fails validation with the insufficient-balance error, while
the stats-read path creates the defaults. -/
theorem C8_witness :
    open_pack (some packPremiumEx) none false poolEmptyEx 0 0 0 rrEx tgEx rrsEx =
      .error (.BadRequest "Insufficient DealCoins") ∧
    (get_user_stats none 0).1.deal_coins = some 500 :=
  ⟨(C8_no_lazy_create packPremiumEx false poolEmptyEx 0 0 0 rrEx tgEx rrsEx).2.1
      (by decide) rfl,
    (C8_no_lazy_create packPremiumEx false poolEmptyEx 0 0 0 rrEx tgEx rrsEx).2.2.2.1⟩

end Claims

section MembershipLemmas

/-- A template returned by the rarity index belongs to the pool and has
the requested rarity. -/
theorem mem_get_by_rarity {pool : RewardPool} {tier : String} {t : RewardTemplate}
    (h : t ∈ pool.get_by_rarity tier) :
    t ∈ pool.rewards.map (fun wr => wr.template) ∧ t.rarity = tier := by
  simp only [RewardPool.get_by_rarity, List.mem_map] at h
  obtain ⟨wr, hwr, rfl⟩ := h
  rw [List.mem_filter] at hwr
  refine ⟨List.mem_map.mpr ⟨wr, hwr.1, rfl⟩, ?_⟩
  simpa using hwr.2

/-- A template selected by weight belongs to the pool. -/
theorem select_by_weight_mem {pool : RewardPool} {target : Int} {t : RewardTemplate}
    (h : pool.select_by_weight target = some t) :
    t ∈ pool.rewards.map (fun wr => wr.template) := by
  simp only [RewardPool.select_by_weight, Option.map_eq_some'] at h
  obtain ⟨wr, hfind, rfl⟩ := h
  exact List.mem_map.mpr ⟨wr, List.mem_of_find?_eq_some hfind, rfl⟩

/-- A template of the guarantee sub-pool belongs to the pool and has one
of the three above-common rarities. -/
theorem mem_guaranteedPool {pool : RewardPool} {t : RewardTemplate}
    (h : t ∈ guaranteedPool pool) :
    t ∈ pool.rewards.map (fun wr => wr.template) ∧
      (t.rarity = "rare" ∨ t.rarity = "epic" ∨ t.rarity = "legendary") := by
  rw [guaranteedPool, List.mem_append, List.mem_append] at h
  rcases h with (h | h) | h
  · exact ⟨(mem_get_by_rarity h).1, Or.inl (mem_get_by_rarity h).2⟩
  · exact ⟨(mem_get_by_rarity h).1, Or.inr (Or.inl (mem_get_by_rarity h).2)⟩
  · exact ⟨(mem_get_by_rarity h).1, Or.inr (Or.inr (mem_get_by_rarity h).2)⟩

/-- Every reward produced by the slot-filling loop materializes some pool
template. -/
theorem fillSlots_mem {pool : RewardPool} {now : Int} {tgts : Nat → Nat}
    {rrs : Nat → RollRand} {gr : GeneratedReward} :
    ∀ {n i : Nat}, gr ∈ fillSlots pool now tgts rrs n i →
      ∃ t ∈ pool.rewards.map (fun wr => wr.template), ∃ rrx,
        gr = template_to_generated_reward t now rrx := by
  intro n
  induction n with
  | zero =>
    intro i h
    simp [fillSlots] at h
  | succ n ih =>
    intro i h
    by_cases hw : 0 < pool.total_weight
    · rcases hsel : pool.select_by_weight (genRangeIncl 1 pool.total_weight (tgts i)) with _ | t
      · rw [fillSlots, if_pos hw] at h
        simp only [hsel] at h
        exact ih h
      · rw [fillSlots, if_pos hw] at h
        simp only [hsel] at h
        rcases List.mem_cons.mp h with h | h
        · exact ⟨t, select_by_weight_mem hsel, rrs i, h⟩
        · exact ih h
    · rw [fillSlots, if_neg hw] at h
      exact ih h

/-- When no rarity guarantee applies (not premium or priced below 299),
the batch is just the slot-filling loop over all `count` slots. -/
theorem generate_rewards_no_guarantee {pool : RewardPool} {count : Int} {pt : PackType}
    {now : Int} {gIdx : Nat} {gRand : RollRand} {tgts : Nat → Nat} {rrs : Nat → RollRand}
    (hcond : ¬ (pt.type = "premium" ∧ 299 ≤ pt.price_coins.getD 0)) :
    generate_rewards pool count pt now gIdx gRand tgts rrs =
      fillSlots pool now tgts rrs count.toNat 0 := by
  simp [generate_rewards, hcond]

/-- When the guarantee applies over an empty sub-pool, the batch is just
the slot-filling loop over all `count` slots. -/
theorem generate_rewards_empty_guarantee {pool : RewardPool} {count : Int} {pt : PackType}
    {now : Int} {gIdx : Nat} {gRand : RollRand} {tgts : Nat → Nat} {rrs : Nat → RollRand}
    (hcond : pt.type = "premium" ∧ 299 ≤ pt.price_coins.getD 0)
    (hgp : guaranteedPool pool = []) :
    generate_rewards pool count pt now gIdx gRand tgts rrs =
      fillSlots pool now tgts rrs count.toNat 0 := by
  simp [generate_rewards, hcond, hgp]

/-- When the guarantee applies over a non-empty sub-pool, the batch is the
uniformly picked guaranteed reward followed by `count - 1` filled slots. -/
theorem generate_rewards_premium_cons {pool : RewardPool} {count : Int} {pt : PackType}
    {now : Int} {gIdx : Nat} {gRand : RollRand} {tgts : Nat → Nat} {rrs : Nat → RollRand}
    (hprem : pt.type = "premium") (hprice : 299 ≤ pt.price_coins.getD 0)
    (hgp : guaranteedPool pool ≠ []) :
    ∃ (hlt : gIdx % (guaranteedPool pool).length < (guaranteedPool pool).length),
      generate_rewards pool count pt now gIdx gRand tgts rrs =
        template_to_generated_reward
            ((guaranteedPool pool).get ⟨gIdx % (guaranteedPool pool).length, hlt⟩) now gRand ::
          fillSlots pool now tgts rrs (count - 1).toNat 0 := by
  refine ⟨Nat.mod_lt _ (List.length_pos.mpr hgp), ?_⟩
  simp [generate_rewards, hprem, hprice, hgp]

/-- Every reward in a generated batch materializes some pool template. -/
theorem generate_rewards_mem {pool : RewardPool} {count : Int} {pt : PackType} {now : Int}
    {gIdx : Nat} {gRand : RollRand} {tgts : Nat → Nat} {rrs : Nat → RollRand}
    {gr : GeneratedReward}
    (h : gr ∈ generate_rewards pool count pt now gIdx gRand tgts rrs) :
    ∃ t ∈ pool.rewards.map (fun wr => wr.template), ∃ rrx,
      gr = template_to_generated_reward t now rrx := by
  by_cases hcond : pt.type = "premium" ∧ 299 ≤ pt.price_coins.getD 0
  · by_cases hgp : guaranteedPool pool = []
    · rw [generate_rewards_empty_guarantee hcond hgp] at h
      exact fillSlots_mem h
    · obtain ⟨hlt, hcons⟩ :=
        @generate_rewards_premium_cons pool count pt now gIdx gRand tgts rrs
          hcond.1 hcond.2 hgp
      rw [hcons] at h
      rcases List.mem_cons.mp h with h | h
      · exact ⟨(guaranteedPool pool).get ⟨gIdx % (guaranteedPool pool).length, hlt⟩,
          (mem_guaranteedPool (List.get_mem _ _ _)).1, gRand, h⟩
      · exact fillSlots_mem h
  · rw [generate_rewards_no_guarantee hcond] at h
    exact fillSlots_mem h

end MembershipLemmas

section ClaimsB

/-- C1 counterexample: opening a pack over a pool holding a coupon
template with `validity_days = 7` returns a reward expiring in 7 days,
yet persists an inventory row expiring in 30 days — the 30-day constant
determines the persisted expiry, so it is not dead and the persisted
expiry is not the template-defined one. -/
theorem C1_counterexample :
    (open_pack (some packBasicEx) (some statsFreshEx) false poolCouponEx 0 0 0 rrEx tgEx
          rrsEx).map
        (fun res => (res.rewards.map (fun r => r.expires_at),
          res.inventory_rows.map (fun r => r.expires_at))) =
      .ok ([some (7 * daySecs)], [some (30 * daySecs)]) ∧
    (7 * daySecs : Int) ≠ 30 * daySecs := by
  exact ⟨rfl, by decide⟩

/-- C1 (amended): in every successful opening, each returned
`GeneratedReward` materializes a pool template with expiry absent for
`points` and otherwise `now + validity_days` (absent when the template
defines none); but the persisted inventory rows recompute expiry, storing
`now + 30 days` for every non-points reward — the 30-day constant is live
and determines every persisted expiry. -/
theorem C1_reward_expiry (pt : PackType) (stats : UserLootpackStats) (ad : Bool)
    (pool : RewardPool) (now : Int) (nd gI : Nat) (gR : RollRand) (tg : Nat → Nat)
    (rr : Nat → RollRand) (res : OpenPackResult)
    (hok : open_pack (some pt) (some stats) ad pool now nd gI gR tg rr = .ok res) :
    (∀ gr ∈ res.rewards, ∃ t ∈ pool.rewards.map (fun wr => wr.template), ∃ rrx,
        gr = template_to_generated_reward t now rrx ∧
        gr.expires_at = (if t.type = "points" then none
          else t.validity_days.map (fun d => now + d * daySecs))) ∧
    res.inventory_rows = res.rewards.map (persistReward now pt.name) ∧
    (∀ row ∈ res.inventory_rows,
        row.expires_at = (if row.type = "points" then none else some (now + 30 * daySecs))) := by
  obtain ⟨stats', hst, hrew, hinv, hupd, hresp⟩ := open_pack_ok_components hok
  refine ⟨?_, hinv, ?_⟩
  · intro gr hgr
    rw [hrew] at hgr
    obtain ⟨t, ht, rrx, hgr'⟩ := generate_rewards_mem hgr
    exact ⟨t, ht, rrx, hgr', by rw [hgr']; rfl⟩
  · intro row hrow
    rw [hinv, List.mem_map] at hrow
    obtain ⟨gr, hgr, rfl⟩ := hrow
    rfl

/-- Witness for C1's amended statement: applied to the coupon-pool
opening of the counterexample, exposing the two expiries. -/
theorem C1_witness :
    ∃ (res : OpenPackResult),
      open_pack (some packBasicEx) (some statsFreshEx) false poolCouponEx 0 0 0 rrEx tgEx
          rrsEx = .ok res ∧
      (∀ row ∈ res.inventory_rows,
        row.expires_at = (if row.type = "points" then none else some (0 + 30 * daySecs))) := by
  have hok :
      open_pack (some packBasicEx) (some statsFreshEx) false poolCouponEx 0 0 0 rrEx tgEx
          rrsEx =
        .ok { rewards := [template_to_generated_reward tmplCouponEx 0 rrEx]
              inventory_rows := [persistReward 0 packBasicEx.name
                (template_to_generated_reward tmplCouponEx 0 rrEx)]
              updated_stats := advanceStats statsFreshEx packBasicEx
                (coin_bonus [template_to_generated_reward tmplCouponEx 0 rrEx]) 0
              stats_response := openResponse packBasicEx
                (advanceStats statsFreshEx packBasicEx
                  (coin_bonus [template_to_generated_reward tmplCouponEx 0 rrEx]) 0) 0 } := by
    rfl
  have h := C1_reward_expiry packBasicEx statsFreshEx false poolCouponEx 0 0 0 rrEx tgEx rrsEx
    _ hok
  exact ⟨_, hok, h.2.2⟩

/-- C3: for every opening of a premium pack priced at 299 or more with a
non-empty guarantee sub-pool (rare ++ epic ++ legendary, duplicates
kept), the batch's first reward is the uniformly picked sub-pool entry
(index `gIdx mod length`, every index being attainable), so the batch
contains at least one reward of rarity rare, epic or legendary, placed
before the remaining slots are filled. -/
theorem C3_premium_guarantee (pool : RewardPool) (count : Int) (pt : PackType) (now : Int)
    (gIdx : Nat) (gRand : RollRand) (tgts : Nat → Nat) (rrs : Nat → RollRand)
    (hprem : pt.type = "premium") (hprice : 299 ≤ pt.price_coins.getD 0)
    (hgp : guaranteedPool pool ≠ []) :
    ∃ (hlt : gIdx % (guaranteedPool pool).length < (guaranteedPool pool).length),
      (generate_rewards pool count pt now gIdx gRand tgts rrs).head? =
        some (template_to_generated_reward
          ((guaranteedPool pool).get ⟨gIdx % (guaranteedPool pool).length, hlt⟩) now gRand) ∧
      (∃ gr ∈ generate_rewards pool count pt now gIdx gRand tgts rrs,
        gr.rarity = "rare" ∨ gr.rarity = "epic" ∨ gr.rarity = "legendary") ∧
      (∀ i, (hi : i < (guaranteedPool pool).length) →
        (generate_rewards pool count pt now i gRand tgts rrs).head? =
          some (template_to_generated_reward ((guaranteedPool pool).get ⟨i, hi⟩) now gRand)) := by
  obtain ⟨hlt, hcons⟩ :=
    @generate_rewards_premium_cons pool count pt now gIdx gRand tgts rrs hprem hprice hgp
  refine ⟨hlt, ?_, ?_, ?_⟩
  · rw [hcons]
    rfl
  · refine ⟨template_to_generated_reward
      ((guaranteedPool pool).get ⟨gIdx % (guaranteedPool pool).length, hlt⟩) now gRand, ?_, ?_⟩
    · rw [hcons]
      exact List.mem_cons_self _ _
    · have hr : (template_to_generated_reward
          ((guaranteedPool pool).get ⟨gIdx % (guaranteedPool pool).length, hlt⟩) now
          gRand).rarity =
            ((guaranteedPool pool).get ⟨gIdx % (guaranteedPool pool).length, hlt⟩).rarity := rfl
      rw [hr]
      exact (mem_guaranteedPool (List.get_mem _ _ _)).2
  · intro i hi
    obtain ⟨hlt', hcons'⟩ :=
      @generate_rewards_premium_cons pool count pt now i gRand tgts rrs hprem hprice hgp
    rw [hcons']
    have hmod : i % (guaranteedPool pool).length = i := Nat.mod_eq_of_lt hi
    simp only [List.head?_cons, hmod]

/-- Witness for C3: the premium pack over the rare-coupon pool always
yields a rare-or-better reward. -/
theorem C3_witness :
    ∃ gr ∈ generate_rewards poolCouponEx 1 packPremiumEx 0 0 rrEx tgEx rrsEx,
      gr.rarity = "rare" ∨ gr.rarity = "epic" ∨ gr.rarity = "legendary" := by
  obtain ⟨hlt, hhead, hmem, huni⟩ :=
    C3_premium_guarantee poolCouponEx 1 packPremiumEx 0 0 rrEx tgEx rrsEx rfl (by decide)
      (by decide)
  exact hmem

end ClaimsB

section PoolBuildLemmas

/-- Prepending to a list shifts `getLast?`'s default to the new head. -/
theorem getLast?_getD_cons {α : Type} (x d : α) (l : List α) :
    ((x :: l).getLast?).getD d = (l.getLast?).getD x := by
  cases l with
  | nil => rfl
  | cons y t =>
    rw [List.getLast?_cons_cons, List.getLast?_eq_getLast_of_ne_nil (List.cons_ne_nil y t)]
    rfl

/-- The built entries carry exactly the mapping weights, an unspecified
weight defaulting to 1. -/
theorem build_weights (ms : List (RewardTemplate × Option Int)) (acc : Int) :
    (buildWeightedRewards ms acc).map (fun wr => wr.weight) =
      ms.map (fun m => m.2.getD 1) := by
  induction ms generalizing acc with
  | nil => rfl
  | cons m rest ih =>
    obtain ⟨t, w⟩ := m
    simp [buildWeightedRewards, ih]

/-- The last cumulative weight of the built entries is the accumulator
plus the sum of the (defaulted) weights. -/
theorem build_cum_last (ms : List (RewardTemplate × Option Int)) (acc : Int) :
    (((buildWeightedRewards ms acc).map (fun wr => wr.cumulative_weight)).getLast?).getD acc =
      acc + (ms.map (fun m => m.2.getD 1)).sum := by
  induction ms generalizing acc with
  | nil => simp [buildWeightedRewards]
  | cons m rest ih =>
    obtain ⟨t, w⟩ := m
    simp only [buildWeightedRewards, List.map_cons]
    rw [getLast?_getD_cons, ih]
    simp [add_assoc]

/-- With non-negative (defaulted) weights, the cumulative weights form an
ascending chain from the accumulator. -/
theorem build_cum_chain (ms : List (RewardTemplate × Option Int)) (acc : Int)
    (hw : ∀ m ∈ ms, 0 ≤ (m.2.getD 1)) :
    List.Chain (· ≤ ·) acc
      ((buildWeightedRewards ms acc).map (fun wr => wr.cumulative_weight)) := by
  induction ms generalizing acc with
  | nil => exact List.Chain.nil
  | cons m rest ih =>
    obtain ⟨t, w⟩ := m
    simp only [buildWeightedRewards, List.map_cons]
    refine List.Chain.cons ?_ (ih _ (fun m hm => hw m (List.mem_cons_of_mem _ hm)))
    have h0 : (0 : Int) ≤ w.getD 1 := by
      simpa using hw (t, w) (List.mem_cons_self _ _)
    exact le_add_of_nonneg_right h0

/-- A chain from any starting point yields a chain across the list
itself. -/
theorem chain'_of_chain {α : Type} {R : α → α → Prop} {a : α} {l : List α}
    (h : List.Chain R a l) : List.Chain' R l := by
  cases h with
  | nil => exact List.chain'_nil
  | cons hab hc => exact hc

end PoolBuildLemmas

section ClaimsC

/-- C2 counterexample: a mapping carrying a negative weight is not
treated as 0 — the built pool incorporates the negative weight as-is and
its total weight is negative. -/
theorem C2_counterexample :
    (get_reward_pool_for_pack [(tmplCouponEx, some (-1))]).total_weight = -1 ∧
    (get_reward_pool_for_pack [(tmplCouponEx, some (-1))]).rewards.map (fun wr => wr.weight) =
      [-1] ∧
    ¬ (0 : Int) ≤ (get_reward_pool_for_pack [(tmplCouponEx, some (-1))]).total_weight :=
  ⟨rfl, rfl, by decide⟩

/-- C2 (amended): the built pool's entries carry the mapping weights with
an unspecified weight defaulting to 1; a negative weight is incorporated
as-is (not clamped to 0). Provided every (defaulted) weight is
non-negative, the cumulative weights are non-decreasing in pool order,
the last cumulative weight equals `total_weight`, and `total_weight` is
non-negative. -/
theorem C2_pool_build (mappings : List (RewardTemplate × Option Int))
    (hw : ∀ m ∈ mappings, 0 ≤ (m.2.getD 1)) :
    ((get_reward_pool_for_pack mappings).rewards.map (fun wr => wr.weight) =
      mappings.map (fun m => m.2.getD 1)) ∧
    List.Chain' (· ≤ ·)
      ((get_reward_pool_for_pack mappings).rewards.map (fun wr => wr.cumulative_weight)) ∧
    (((get_reward_pool_for_pack mappings).rewards.map
        (fun wr => wr.cumulative_weight)).getLast?).getD 0 =
      (get_reward_pool_for_pack mappings).total_weight ∧
    0 ≤ (get_reward_pool_for_pack mappings).total_weight := by
  have hrew : (get_reward_pool_for_pack mappings).rewards = buildWeightedRewards mappings 0 :=
    rfl
  have htot : (get_reward_pool_for_pack mappings).total_weight =
      ((buildWeightedRewards mappings 0).map (fun wr => wr.weight)).sum := rfl
  refine ⟨?_, ?_, ?_, ?_⟩
  · rw [hrew]
    exact build_weights mappings 0
  · rw [hrew]
    exact chain'_of_chain (build_cum_chain mappings 0 hw)
  · rw [hrew, htot, build_cum_last, build_weights]
    simp
  · rw [htot, build_weights]
    refine List.sum_nonneg ?_
    intro x hx
    obtain ⟨m, hm, rfl⟩ := List.mem_map.mp hx
    exact hw m hm

/-- Witness for C2: a two-entry mapping list, the second with an
unspecified weight, builds cumulative weights 3, 4 with total 4. -/
theorem C2_witness :
    (((get_reward_pool_for_pack [(tmplPointsEx, some 3), (tmplCouponEx, none)]).rewards.map
        (fun wr => wr.weight) =
      [(tmplPointsEx, some 3), (tmplCouponEx, (none : Option Int))].map
        (fun m => m.2.getD 1)) ∧
    List.Chain' (· ≤ ·)
      ((get_reward_pool_for_pack [(tmplPointsEx, some 3), (tmplCouponEx, none)]).rewards.map
        (fun wr => wr.cumulative_weight)) ∧
    (((get_reward_pool_for_pack [(tmplPointsEx, some 3), (tmplCouponEx, none)]).rewards.map
        (fun wr => wr.cumulative_weight)).getLast?).getD 0 =
      (get_reward_pool_for_pack [(tmplPointsEx, some 3), (tmplCouponEx, none)]).total_weight ∧
    0 ≤ (get_reward_pool_for_pack [(tmplPointsEx, some 3), (tmplCouponEx, none)]).total_weight) :=
  C2_pool_build [(tmplPointsEx, some 3), (tmplCouponEx, none)] (by decide)

/-- C9 counterexample: the suffix draw is `gen_range(100..999)` with an
exclusive upper bound, so the 3-digit number 999 can never be produced,
contradicting the claim that every suffix from 100 through 999 is a
possible output. -/
theorem C9_counterexample : ¬ ∃ d : Nat, couponSuffix d = 999 := by
  rintro ⟨d, hd⟩
  rw [couponSuffix, genRangeExcl] at hd
  have hlt : d % (999 - 100 : Int).toNat < 899 := Nat.mod_lt _ (by decide)
  omega

/-- C9 (amended): a redemption code is attached exactly for coupons and
vouchers, formed as a prefix uniformly drawn from the fixed list keyed by
kind (`coupon` and `voucher` lists as documented, `DEAL` otherwise)
followed by the suffix draw; the suffix is uniform over `[100, 998]` —
every value from 100 through 998 inclusive is attainable, and 999 is
not. -/
theorem C9_coupon_codes (t : RewardTemplate) (now : Int) (rru : RollRand) (s : Int) :
    ((template_to_generated_reward t now rru).code.isSome ↔
      (t.type = "coupon" ∨ t.type = "voucher")) ∧
    ((t.type = "coupon" ∨ t.type = "voucher") →
      (template_to_generated_reward t now rru).code =
        some (generate_coupon_code t.type rru.pfxDraw rru.sfxDraw)) ∧
    (∀ (rt : String) (p d : Nat), generate_coupon_code rt p d =
      (couponPrefixes rt).getD (p % (couponPrefixes rt).length) "DEAL" ++
        toString (couponSuffix d)) ∧
    couponPrefixes "coupon" = ["DEAL", "SAVE", "SHOP", "MEGA", "SUPER"] ∧
    couponPrefixes "voucher" = ["GIFT", "FREE", "ENJOY", "TREAT", "BONUS"] ∧
    (t.type ≠ "coupon" → t.type ≠ "voucher" → couponPrefixes t.type = ["DEAL"]) ∧
    (100 ≤ couponSuffix rru.sfxDraw ∧ couponSuffix rru.sfxDraw ≤ 998) ∧
    (100 ≤ s → s ≤ 998 → ∃ d : Nat, couponSuffix d = s) ∧
    (∀ (rt : String) (i : Nat), i < (couponPrefixes rt).length →
      ∃ p : Nat, (couponPrefixes rt).getD (p % (couponPrefixes rt).length) "DEAL" =
        (couponPrefixes rt).getD i "DEAL") := by
  refine ⟨?_, ?_, ?_, rfl, rfl, ?_, ?_, ?_, ?_⟩
  · by_cases h : t.type = "coupon" ∨ t.type = "voucher" <;>
      simp [template_to_generated_reward, h]
  · intro h
    simp [template_to_generated_reward, h]
  · intro rt p d
    rfl
  · intro h1 h2
    rw [couponPrefixes, if_neg h1, if_neg h2]
  · constructor
    · rw [couponSuffix, genRangeExcl]
      omega
    · rw [couponSuffix, genRangeExcl]
      have hlt : rru.sfxDraw % (999 - 100 : Int).toNat < 899 := Nat.mod_lt _ (by decide)
      omega
  · intro h1 h2
    refine ⟨(s - 100).toNat, ?_⟩
    rw [couponSuffix, genRangeExcl]
    have hlt : (s - 100).toNat < (999 - 100 : Int).toNat := by omega
    rw [Nat.mod_eq_of_lt hlt]
    omega
  · intro rt i hi
    refine ⟨i, ?_⟩
    rw [Nat.mod_eq_of_lt hi]

/-- Witness for C9's amended statement: the coupon template carries a
code, and suffix 998 is attainable. -/
theorem C9_witness :
    ((template_to_generated_reward tmplCouponEx 0 rrEx).code.isSome ↔
      (tmplCouponEx.type = "coupon" ∨ tmplCouponEx.type = "voucher")) ∧
    ∃ d : Nat, couponSuffix d = 998 := by
  have h := C9_coupon_codes tmplCouponEx 0 rrEx 998
  exact ⟨h.1, h.2.2.2.2.2.2.2.1 (by decide) (by decide)⟩

end ClaimsC

end Lootpacks
